import Mathlib

/-!
Shallow embedding of the pybeamer/pyradium renderer-cache core:
the exec renderer (`pybeamer/renderer/ExecRenderer.py`), the LaTeX formula
renderer of the rewrite (`rewrite/pybeamer/renderer/LatexFormulaRenderer.py`),
the file-deployment part of `RenderedPresentation`
(`pybeamer/PresentationRenderer.py`), and the generic renderer cache, which is
modelled from the spec because `RendererCache.py` is not among the sources.

Python dictionaries with string keys are modelled as association lists in which
the first binding for a key wins; Python byte strings are lists of naturals
below 256; external collaborators (the content-digest primitive, the md5 hash,
process execution) are parameters of the embedded functions.
-/

/-- Python values appearing in request and property mappings. -/
inductive PyValue where
  | str (s : String)
  | int (n : Int)
  | bool (b : Bool)
  | strList (l : List String)
  | bytes (b : List Nat)
  deriving DecidableEq

/-- A Python dict with string keys, as an association list (first binding wins). -/
abbrev PropertyDict := List (String × PyValue)

/-- Python subscript `d[k]` as a total function: `some v` when the key is
bound, `none` otherwise (a `none` corresponds to Python raising `KeyError`). -/
def pdLookup (k : String) : PropertyDict → Option PyValue
  | [] => none
  | (k2, v) :: rest => if k2 = k then some v else pdLookup k rest

/-- Python `d.get(k, default)` for boolean-valued entries, as used by
`LatexFormulaRenderer.render` for the `short` flag. -/
def pdGetBool (k : String) (dflt : Bool) (pd : PropertyDict) : Bool :=
  match pdLookup k pd with
  | some (.bool b) => b
  | _ => dflt

/-- Content written by `RenderedPresentation.add_file`: a Python `str`
(opened with mode `w`) or bytes (mode `wb`). -/
inductive FileContent where
  | str (s : String)
  | bytes (b : List Nat)
  deriving DecidableEq

/-- The state of a `RenderedPresentation` relevant to file deployment: the
`_added_files` set and the files written under the deploy directory (most
recent write first). -/
structure PresState where
  addedFiles : List String
  deployed : List (String × FileContent)
  deriving DecidableEq

/-- Embedding of `RenderedPresentation.add_file`: returns the state unchanged
when the destination was added before; otherwise records the path and writes
the file. -/
def PresState.addFile (s : PresState) (dest : String) (content : FileContent) :
    PresState :=
  if dest ∈ s.addedFiles then s
  else { addedFiles := dest :: s.addedFiles,
         deployed := (dest, content) :: s.deployed }

/-- Embedding of `RenderedPresentation.copy_file`: returns early when the
destination was added before; otherwise reads the source file and delegates to
`add_file`. `sourceRead` models reading a file's content from disk. -/
def PresState.copyFile (s : PresState) (sourceRead : String → FileContent)
    (src dest : String) : PresState :=
  if dest ∈ s.addedFiles then s
  else s.addFile dest (sourceRead src)

/-- Python `round(n / 2)` for a natural `n`: exact when `n` is even, and
round-half-to-even otherwise. -/
def pyRoundHalf (n : Nat) : Nat :=
  if n % 2 = 0 then n / 2
  else if (n / 2) % 2 = 0 then n / 2 else n / 2 + 1

/-- The fields of the ImageMagick JSON used by
`LatexFormulaRenderer._get_image_info`: the page geometry of the trimmed
baseline-marker strip (`pageGeometry.width`, `pageGeometry.height`,
`pageGeometry.y`) and the trimmed strip's own height (`geometry.height`).
All are nonnegative pixel counts. -/
structure CropInfo where
  pageWidth : Nat
  pageHeight : Nat
  pageY : Nat
  cropHeight : Nat

/-- The `image_info` mapping built by `_get_image_info`. -/
structure ImageInfo where
  width : Nat
  height : Nat
  baseline : Nat
  deriving DecidableEq

/-- Embedding of `LatexFormulaRenderer._get_image_info`, after the external
`convert` invocation has produced `ci`. -/
def getImageInfo (ci : CropInfo) : ImageInfo :=
  let image_width := ci.pageWidth
  let image_height := ci.pageHeight
  let upper_baseline_y_from_top := ci.pageY
  let lower_baseline_y_from_top := upper_baseline_y_from_top + ci.cropHeight
  let baseline_y_from_top :=
    pyRoundHalf (upper_baseline_y_from_top + lower_baseline_y_from_top)
  let baseline_y_from_bottom := image_height - baseline_y_from_top
  { width := image_width, height := image_height,
    baseline := baseline_y_from_bottom }

/-- A single-quote character as a string, for building Python `repr`-style
output. -/
def squote : String := String.singleton (Char.ofNat 39)

/-- Python `str()` of a list of strings, as in `str(cmd)` inside the exec
renderer's failure messages (element escaping is not modelled). -/
def pyStrOfList (l : List String) : String :=
  "[" ++ String.intercalate ", " (l.map (fun s => squote ++ s ++ squote)) ++ "]"

/-- Decides whether a string contains a decimal digit; a failure message that
mentions an exit code (an integer rendered with a percent-d format) must. -/
def containsDigit (s : String) : Bool := s.data.any (fun c => c.isDigit)

/-- Outcome of `subprocess.run(cmd, stdout = PIPE, stderr = PIPE)` as the exec
renderer observes it: either the process could not be started
(a `PermissionError` carrying a message) or it completed with a return code
and captured output bytes. -/
inductive ProcOutcome where
  | permissionError (errMsg : String)
  | completed (returncode : Int) (stdout stderr : List Nat)

/-- Failures of a renderer's `render`, following the spec's error taxonomy
(spec section 7): a Python `KeyError` on a missing request field is the
spec's `InvalidInputError`; `FailedToExecuteSubprocessException` is the
spec's `RenderExecutionError`. -/
inductive RenderError where
  | invalidInput (field : String)
  | execFailed (msg : String)
  deriving DecidableEq

/-- Failure message of `ExecRenderer.render` when `subprocess.run` raises
`PermissionError` with message `e`. -/
def execStartFailMsg (cmd : List String) (e : String) : String :=
  ("Could not execute " ++ squote) ++ pyStrOfList cmd ++
    ((squote ++ " (") ++ (e ++ ").") )

/-- Failure message of `ExecRenderer.render` when the process exits with a
non-zero return code `rc`. -/
def execNonzeroMsg (cmd : List String) (rc : Int) : String :=
  ("Could not execute " ++ squote) ++ pyStrOfList cmd ++
    ((squote ++ ": returncode ") ++ (toString rc ++ "."))

/-- Embedding of `ExecRenderer.render`. The external process primitive is the
parameter `run`; the result on success is the mapping with the `cmd`,
`stdout` and `stderr` entries, in that construction order. -/
def execRender (run : List String → ProcOutcome) (pd : PropertyDict) :
    Except RenderError PropertyDict :=
  match pdLookup "cmd" pd with
  | some (.strList cmd) =>
    match run cmd with
    | .permissionError e => .error (.execFailed (execStartFailMsg cmd e))
    | .completed rc out err =>
      if rc ≠ 0 then .error (.execFailed (execNonzeroMsg cmd rc))
      else .ok [("cmd", .strList cmd), ("stdout", .bytes out),
                ("stderr", .bytes err)]
  | _ => .error (.invalidInput "cmd")

/-- Embedding of `HashTools.hash_file`: the content digest of the file at a
path. The digest primitive `digest` and the file system `fs` (mapping a path
to the file's bytes) are external collaborators. -/
def hash_file (digest : List Nat → String) (fs : String → List Nat)
    (path : String) : String :=
  digest (fs path)

/-- Embedding of `ExecRenderer.rendering_key`: a mapping holding only the
content digest of the file at `cmd[0]`. It is `none` when the request has no
`cmd` list or the list is empty (Python `KeyError` or `IndexError`). -/
def execRenderingKey (digest : List Nat → String) (fs : String → List Nat)
    (pd : PropertyDict) : Option PropertyDict :=
  match pdLookup "cmd" pd with
  | some (.strList (c0 :: _)) =>
    some [("srchash", .str (hash_file digest fs c0))]
  | _ => none

/-- Identity of `ExecRenderer`: `name`. -/
def execName : String := "exec"

/-- Identity of `ExecRenderer`: `properties`. -/
def execProperties : PropertyDict := [("version", .int 1)]

/-- Comparison used by Python `sorted` on a dict's items when keys are
distinct: the keys decide. -/
def itemLe (p q : String × PyValue) : Prop := p.1 ≤ q.1

instance : DecidableRel itemLe := fun p q => inferInstanceAs (Decidable (p.1 ≤ q.1))

instance : IsTotal (String × PyValue) itemLe := ⟨fun a b => le_total a.1 b.1⟩

instance : IsTrans (String × PyValue) itemLe := ⟨fun _ _ _ h1 h2 => le_trans h1 h2⟩

instance : IsAntisymm (String × PyValue) (fun p q : String × PyValue => p.1 < q.1) :=
  ⟨fun _ _ hab hba => absurd hba (lt_asymm hab)⟩

/-- Python `sorted(d.items())` for a dict `d` (keys are distinct, so
comparison never reaches the values). -/
def sortItems (pd : PropertyDict) : PropertyDict := List.insertionSort itemLe pd

/-- Python `str()` of a single value, as it appears inside `str()` of a list
of items (escaping is not modelled). -/
def pyReprValue : PyValue → String
  | .str s => squote ++ s ++ squote
  | .int n => toString n
  | .bool b => if b then "True" else "False"
  | .strList l => pyStrOfList l
  | .bytes b => "b" ++ squote ++ String.intercalate "," (b.map toString) ++ squote

/-- Python `str()` of a list of `(key, value)` items. -/
def pyStrOfItems (pd : PropertyDict) : String :=
  "[" ++ String.intercalate ", "
    (pd.map (fun p =>
      "(" ++ squote ++ p.1 ++ squote ++ ", " ++ pyReprValue p.2 ++ ")")) ++ "]"

/-- Embedding of `RenderedLatexFormula.calculate_cachekey`: the md5 hex digest
of `formula + " || " + str(sorted(rendering_parameters.items()))`. The md5
primitive `md5hex` is an external collaborator. -/
def calculate_cachekey (md5hex : String → String) (formula : String)
    (rendering_parameters : PropertyDict) : String :=
  md5hex (formula ++ " || " ++ pyStrOfItems (sortItems rendering_parameters))

/-- Modelled from the spec: a renderer capability as the cache sees it
(spec section 4.1) — `RendererCache.py` with `BaseRenderer` is not among the
sources. It bundles `name`, `properties`, `rendering_key` and `render`. -/
structure SpecRenderer (Req Res : Type) where
  name : String
  properties : PropertyDict
  renderingKey : Req → PropertyDict
  render : Req → Except RenderError Res

/-- Modelled from the spec: the persistent store of a renderer cache, an
on-disk mapping from cache key to a deserializable entry (spec sections 2
and 4.2). -/
structure CacheState (Res : Type) where
  store : List (String × Res)

/-- Modelled from the spec: the result object a renderer cache returns,
exposing `keyhash` and `data` (spec sections 3 and 6). -/
structure RenderedArtifact (Res : Type) where
  keyhash : String
  data : Res
  deriving DecidableEq

/-- Modelled from the spec: the canonical serialization of KeyMaterial —
renderer name, properties and rendering key, each mapping serialized with
sorted keys (spec section 4.2, step 1). -/
def serializeKeyMaterial (name : String) (props rk : PropertyDict) : String :=
  name ++ " || " ++ pyStrOfItems (sortItems props) ++ " || " ++
    pyStrOfItems (sortItems rk)

/-- Modelled from the spec: the CacheKey, a stable content digest of the
canonical serialization of KeyMaterial (spec section 4.2, step 2); the digest
primitive `digestKM` is an external collaborator. -/
def cacheKeyOf (digestKM : String → String) (name : String)
    (props rk : PropertyDict) : String :=
  digestKM (serializeKeyMaterial name props rk)

/-- Modelled from the spec: `RendererCache.render` (spec section 4.2).
Returns the artifact or the renderer's error, the updated store, and whether
the wrapped renderer's `render` was invoked. A hit is returned without
invoking `render`; on a miss the renderer runs, a successful result is
published, and a failure propagates with no entry written. -/
def cacheRender {Req Res : Type} (digestKM : String → String)
    (r : SpecRenderer Req Res) (s : CacheState Res) (req : Req) :
    Except RenderError (RenderedArtifact Res) × CacheState Res × Bool :=
  match s.store.lookup (cacheKeyOf digestKM r.name r.properties
      (r.renderingKey req)) with
  | some entry =>
    (.ok ⟨cacheKeyOf digestKM r.name r.properties (r.renderingKey req),
       entry⟩, s, false)
  | none =>
    match r.render req with
    | .error e => (.error e, s, true)
    | .ok res =>
      (.ok ⟨cacheKeyOf digestKM r.name r.properties (r.renderingKey req),
         res⟩,
       ⟨(cacheKeyOf digestKM r.name r.properties (r.renderingKey req), res) ::
         s.store⟩, true)

/-- The invisible baseline marker of `LatexFormulaRenderer.render`: a 1mm
rule followed by 2mm of space. -/
def latexBaselineRule : String := "\\rule\x7b1mm\x7d\x7b1pt\x7d \\hspace\x7b2mm\x7d"

/-- The formula content embedded into the TeX document by
`LatexFormulaRenderer.render`: inline math when the `short` flag is set,
display math otherwise, the baseline marker prepended in both. -/
def latexContent (f : String) (short : Bool) : String :=
  if short then "$" ++ latexBaselineRule ++ f ++ "$"
  else "\\[" ++ latexBaselineRule ++ f ++ " \\]"

/-- The image object `LatexFormulaRenderer.render` returns: the cropped PNG
bytes and the measured image info. -/
structure LatexImage where
  png_data : List Nat
  info : ImageInfo
  deriving DecidableEq

/-- Embedding of `LatexFormulaRenderer.render`: extracts `short` (defaulting
to false) and the `formula` text, builds the TeX content, and runs the
external pdflatex/convert pipeline, abstracted as `pipeline` from the content
to the final PNG bytes and the crop info of the baseline-marker strip.
A request without a `formula` entry fails before any external tool runs. -/
def latexRender (pipeline : String → List Nat × CropInfo) (pd : PropertyDict) :
    Except RenderError LatexImage :=
  match pdLookup "formula" pd with
  | some (.str f) =>
    let content := latexContent f (pdGetBool "short" false pd)
    let out := pipeline content
    .ok { png_data := out.1, info := getImageInfo out.2 }
  | _ => .error (.invalidInput "formula")

/-- Identity of `LatexFormulaRenderer`: `name`. -/
def latexName : String := "latex"

/-- Identity of `LatexFormulaRenderer`: `properties`, holding the version and
the rendering resolution. -/
def latexProperties (rendering_dpi : Int) : PropertyDict :=
  [("version", .int 1), ("rendering_dpi", .int rendering_dpi)]

/-- Modelled from the spec: `LatexFormulaRenderer` does not override
`BaseRenderer.rendering_key`, and `RendererCache.py` with `BaseRenderer` is
not among the sources; per spec section 4.1 the default behavior is to use
the entire request. -/
def latexRenderingKey (pd : PropertyDict) : PropertyDict := pd

/-- The base64 alphabet used by `base64.b64encode`. -/
def b64Alphabet : List Char :=
  "ABCDEFGHIJKLMNOPQRSTUVWXYZabcdefghijklmnopqrstuvwxyz0123456789+/".toList

/-- The base64 padding character. -/
def b64Pad : Char := Char.ofNat 61

/-- Alphabet character of a sextet. -/
def b64Char (n : Nat) : Char := b64Alphabet.getD n (Char.ofNat 65)

/-- Sextet of an alphabet character, the inverse of `b64Char` below 64. -/
def b64Index (c : Char) : Nat := b64Alphabet.indexOf c

/-- Base64 encoding of a byte sequence (`base64.b64encode`), three bytes to
four characters, with padding. -/
def b64encodeChars : List Nat → List Char
  | a :: b :: c :: rest =>
    b64Char (a / 4) :: b64Char (a % 4 * 16 + b / 16) ::
      b64Char (b % 16 * 4 + c / 64) :: b64Char (c % 64) :: b64encodeChars rest
  | [a, b] =>
    [b64Char (a / 4), b64Char (a % 4 * 16 + b / 16), b64Char (b % 16 * 4),
     b64Pad]
  | [a] => [b64Char (a / 4), b64Char (a % 4 * 16), b64Pad, b64Pad]
  | [] => []

/-- Base64 decoding (`base64.b64decode`), four characters to three bytes,
honouring padding. -/
def b64decodeChars : List Char → List Nat
  | w :: x :: y :: z :: rest =>
    let i1 := b64Index w
    let i2 := b64Index x
    if y = b64Pad then [i1 * 4 + i2 / 16]
    else
      let i3 := b64Index y
      if z = b64Pad then [i1 * 4 + i2 / 16, i2 % 16 * 16 + i3 / 4]
      else
        (i1 * 4 + i2 / 16) :: (i2 % 16 * 16 + i3 / 4) ::
          (i3 % 4 * 64 + b64Index z) :: b64decodeChars rest
  | _ => []

/-- Python `base64.b64encode(data).decode("ascii")`. -/
def b64encode (data : List Nat) : String := String.mk (b64encodeChars data)

/-- Python `base64.b64decode(text)`. -/
def b64decode (text : String) : List Nat := b64decodeChars text.data

/-- Embedding of the `RenderedLatexFormula` object. -/
structure RenderedLatexFormula where
  formula : String
  png_data : List Nat
  image_info : PropertyDict
  rendering_parameters : PropertyDict
  deriving DecidableEq

/-- The JSON document written by `RenderedLatexFormula.write_jsonfile` and
parsed back by `read_jsonfile`; `json.dump` followed by `json.load` is
modelled as the identity on this structured value (the JSON codec is an
external collaborator, spec section 6). -/
structure FormulaJsonFile where
  object : String
  formula : String
  rendering_parameters : PropertyDict
  image_info : PropertyDict
  image : String
  deriving DecidableEq

/-- Embedding of `RenderedLatexFormula.write_jsonfile`. -/
def write_jsonfile (a : RenderedLatexFormula) : FormulaJsonFile :=
  { object := "formula",
    formula := a.formula,
    rendering_parameters := a.rendering_parameters,
    image_info := a.image_info,
    image := b64encode a.png_data }

/-- Embedding of `RenderedLatexFormula.read_jsonfile`: asserts the `object`
marker and reconstructs the artifact, decoding the payload. -/
def read_jsonfile (j : FormulaJsonFile) : Option RenderedLatexFormula :=
  if j.object = "formula" then
    some { formula := j.formula,
           png_data := b64decode j.image,
           image_info := j.image_info,
           rendering_parameters := j.rendering_parameters }
  else none

/-- Fixture: a process primitive under which every command exits with status 0
and empty output, as `/bin/true` does. -/
def runTrue : List String → ProcOutcome := fun _ => .completed 0 [] []

/-- Fixture: a process primitive under which starting any command raises
`PermissionError`. -/
def runPermFail : List String → ProcOutcome :=
  fun _ => .permissionError "Permission denied"

/-- Fixture: a process primitive under which every command exits with
status 2. -/
def runExit2 : List String → ProcOutcome := fun _ => .completed 2 [] []

/-- Fixture: a stub renderer whose `render` always succeeds with a fixed
payload. -/
def stubRenderer : SpecRenderer Nat (List Nat) :=
  { name := "stub", properties := [("version", .int 1)],
    renderingKey := fun _ => [], render := fun _ => .ok [1, 2, 3] }

/-- Fixture: a stub renderer whose `render` always fails with an invalid-input
error. -/
def failingRenderer : SpecRenderer Nat (List Nat) :=
  { name := "failing", properties := [("version", .int 1)],
    renderingKey := fun _ => [], render := fun _ => .error (.invalidInput "cmd") }

/-- Fixture: a content-digest primitive over bytes (the length, rendered). -/
def lenDigest : List Nat → String := fun b => toString b.length

/-- Fixture: a file system with a single empty file at every path. -/
def emptyFs : String → List Nat := fun _ => []

/-- Fixture: a concrete formula artifact with a four-byte PNG payload. -/
def sampleArtifact : RenderedLatexFormula :=
  { formula := "x^2",
    png_data := [137, 80, 78, 71],
    image_info := [("width", .int 10), ("height", .int 7), ("baseline", .int 3)],
    rendering_parameters := [("rendering_dpi", .int 600), ("short", .bool false)] }

/-! Helper lemmas. -/

theorem b64Index_b64Char : ∀ n < 64, b64Index (b64Char n) = n := by decide

theorem b64Char_ne_pad : ∀ n < 64, b64Char n ≠ b64Pad := by decide

/-- Base64 decoding inverts encoding on byte sequences. -/
theorem b64decodeChars_encodeChars (l : List Nat) (h : ∀ b ∈ l, b < 256) :
    b64decodeChars (b64encodeChars l) = l := by
  induction l using b64encodeChars.induct with
  | case1 a b c rest ih =>
    have ha : a < 256 := h a (by simp)
    have hb : b < 256 := h b (by simp)
    have hc : c < 256 := h c (by simp)
    have h1 : a / 4 < 64 := by omega
    have h2 : a % 4 * 16 + b / 16 < 64 := by omega
    have h3 : b % 16 * 4 + c / 64 < 64 := by omega
    have h4 : c % 64 < 64 := by omega
    rw [b64encodeChars, b64decodeChars]
    simp only [b64Char_ne_pad _ h3, b64Char_ne_pad _ h4, if_neg, ite_false,
      b64Index_b64Char _ h1, b64Index_b64Char _ h2, b64Index_b64Char _ h3,
      b64Index_b64Char _ h4]
    rw [ih (fun x hx => h x (by simp [hx]))]
    simp only [List.cons.injEq, and_true]
    omega
  | case2 a b =>
    have ha : a < 256 := h a (by simp)
    have hb : b < 256 := h b (by simp)
    have h1 : a / 4 < 64 := by omega
    have h2 : a % 4 * 16 + b / 16 < 64 := by omega
    have h3 : b % 16 * 4 < 64 := by omega
    rw [b64encodeChars, b64decodeChars]
    simp only [b64Index_b64Char _ h1, b64Index_b64Char _ h2,
      b64Index_b64Char _ h3]
    rw [if_neg (b64Char_ne_pad _ h3)]
    simp only [if_true, ite_true, List.cons.injEq, and_true]
    omega
  | case3 a =>
    have ha : a < 256 := h a (by simp)
    have h1 : a / 4 < 64 := by omega
    have h2 : a % 4 * 16 < 64 := by omega
    rw [b64encodeChars, b64decodeChars]
    simp only [b64Index_b64Char _ h1, b64Index_b64Char _ h2]
    simp only [if_true, ite_true, List.cons.injEq, and_true]
    omega
  | case4 => rfl

/-- Key-sorting a mapping with distinct keys yields a strictly key-sorted
list. -/
theorem sortItems_sorted_lt (l : PropertyDict)
    (hnd : (l.map Prod.fst).Nodup) :
    (sortItems l).Sorted (fun p q : String × PyValue => p.1 < q.1) := by
  have hs : (sortItems l).Sorted itemLe := List.sorted_insertionSort itemLe l
  have hperm : (sortItems l).Perm l := List.perm_insertionSort itemLe l
  have hnd2 : ((sortItems l).map Prod.fst).Nodup :=
    ((hperm.map Prod.fst).nodup_iff).2 hnd
  have hne : (sortItems l).Pairwise
      (fun p q : String × PyValue => p.1 ≠ q.1) :=
    (List.pairwise_map).1 hnd2
  exact (hs.and hne).imp (fun h => lt_of_le_of_ne h.1 h.2)

/-- Sorting by key is invariant under permutation of a mapping with distinct
keys. -/
theorem sortItems_perm_eq (p1 p2 : PropertyDict) (hperm : p1.Perm p2)
    (hnd : (p1.map Prod.fst).Nodup) : sortItems p1 = sortItems p2 := by
  have hnd2 : (p2.map Prod.fst).Nodup := ((hperm.map Prod.fst).nodup_iff).1 hnd
  exact List.eq_of_perm_of_sorted
    ((List.perm_insertionSort itemLe p1).trans
      (hperm.trans (List.perm_insertionSort itemLe p2).symm))
    (sortItems_sorted_lt p1 hnd) (sortItems_sorted_lt p2 hnd2)

/-! Claim theorems. -/

/-- C10: `RenderedPresentation.add_file` (and `copy_file`, which delegates to
it) is first-write-wins per destination path: only the first call for a
destination writes a file; every later call with the same destination — even
with different content — leaves the state (deployed files and added set)
unchanged; the set of added paths grows monotonically; and `copy_file`
behaves as `add_file` of the source's content. -/
theorem addFile_first_write_wins :
    (∀ (s : PresState) (dest : String) (c1 c2 : FileContent),
        (s.addFile dest c1).addFile dest c2 = s.addFile dest c1) ∧
    (∀ (s : PresState) (dest : String) (c : FileContent),
        dest ∈ s.addedFiles → s.addFile dest c = s) ∧
    (∀ (s : PresState) (dest : String) (c : FileContent),
        dest ∈ (s.addFile dest c).addedFiles) ∧
    (∀ (s : PresState) (dest : String) (c : FileContent),
        s.addedFiles ⊆ (s.addFile dest c).addedFiles) ∧
    (∀ (s : PresState) (sourceRead : String → FileContent) (src dest : String),
        s.copyFile sourceRead src dest = s.addFile dest (sourceRead src)) := by
  refine ⟨?_, ?_, ?_, ?_, ?_⟩
  · intro s dest c1 c2
    by_cases h : dest ∈ s.addedFiles <;> simp [PresState.addFile, h]
  · intro s dest c h
    simp [PresState.addFile, h]
  · intro s dest c
    unfold PresState.addFile
    split_ifs with h
    · exact h
    · exact List.mem_cons_self dest s.addedFiles
  · intro s dest c
    unfold PresState.addFile
    split_ifs with h
    · exact fun x hx => hx
    · exact fun x hx => List.mem_cons_of_mem _ hx
  · intro s sourceRead src dest
    unfold PresState.copyFile PresState.addFile
    split_ifs with h <;> rfl

/-- Witness for C10 at concrete inputs: re-adding the path `a` with different
content changes nothing. -/
theorem addFile_first_write_wins_witness :
    (PresState.mk ["a"] [("a", .str "x")]).addFile "a" (.str "y") =
      PresState.mk ["a"] [("a", .str "x")] :=
  addFile_first_write_wins.2.1 (PresState.mk ["a"] [("a", .str "x")]) "a"
    (.str "y") (by decide)

/-- C8: the baseline reported by `_get_image_info` equals the page height
minus the rounded midpoint of the strip's vertical extent,
`H - round((y + (y + h)) / 2)`, and twice the resulting from-top offset is
within one pixel of `2y + h`, so the baseline is the strip's vertical midpoint
expressed as a distance from the image's bottom edge. -/
theorem getImageInfo_baseline (ci : CropInfo) (hpos : 1 ≤ ci.cropHeight)
    (hin : ci.pageY + ci.cropHeight ≤ ci.pageHeight) :
    (getImageInfo ci).baseline =
      ci.pageHeight - pyRoundHalf (ci.pageY + (ci.pageY + ci.cropHeight)) ∧
    2 * ci.pageY + ci.cropHeight - 1 ≤
      2 * (ci.pageHeight - (getImageInfo ci).baseline) ∧
    2 * (ci.pageHeight - (getImageInfo ci).baseline) ≤
      2 * ci.pageY + ci.cropHeight + 1 := by
  refine ⟨rfl, ?_, ?_⟩ <;>
    (simp only [getImageInfo, pyRoundHalf]; split_ifs <;> omega)

/-- Witness for C8 at a concrete crop info: page height 200, strip from
y = 50 of height 3. -/
theorem getImageInfo_baseline_witness :
    (getImageInfo (CropInfo.mk 100 200 50 3)).baseline =
      200 - pyRoundHalf (50 + (50 + 3)) ∧
    2 * 50 + 3 - 1 ≤
      2 * (200 - (getImageInfo (CropInfo.mk 100 200 50 3)).baseline) ∧
    2 * (200 - (getImageInfo (CropInfo.mk 100 200 50 3)).baseline) ≤
      2 * 50 + 3 + 1 :=
  getImageInfo_baseline (CropInfo.mk 100 200 50 3) (by decide) (by decide)

/-- C7: writing a formula artifact with `write_jsonfile` and reading it back
with `read_jsonfile` reconstructs it exactly: the PNG payload survives the
base64 encode/decode round trip byte-identically, and the formula, rendering
parameters and image-info metadata are preserved. -/
theorem write_read_jsonfile_roundtrip (a : RenderedLatexFormula)
    (h : ∀ b ∈ a.png_data, b < 256) :
    read_jsonfile (write_jsonfile a) = some a ∧
    b64decode (b64encode a.png_data) = a.png_data ∧
    (write_jsonfile a).formula = a.formula ∧
    (write_jsonfile a).rendering_parameters = a.rendering_parameters ∧
    (write_jsonfile a).image_info = a.image_info := by
  have hb : b64decode (b64encode a.png_data) = a.png_data :=
    b64decodeChars_encodeChars a.png_data h
  refine ⟨?_, hb, rfl, rfl, rfl⟩
  simp [read_jsonfile, write_jsonfile, hb]

/-- Witness for C7 at a concrete artifact with payload bytes 137, 80, 78,
71. -/
theorem write_read_jsonfile_roundtrip_witness :
    read_jsonfile (write_jsonfile sampleArtifact) = some sampleArtifact ∧
    b64decode (b64encode sampleArtifact.png_data) = sampleArtifact.png_data ∧
    (write_jsonfile sampleArtifact).formula = sampleArtifact.formula ∧
    (write_jsonfile sampleArtifact).rendering_parameters =
      sampleArtifact.rendering_parameters ∧
    (write_jsonfile sampleArtifact).image_info = sampleArtifact.image_info :=
  write_read_jsonfile_roundtrip sampleArtifact (by decide)

/-- C3: the formula cache-key function is deterministic and
order-independent — permuting the insertion order of the
rendering-parameters mapping (whose keys, as dict keys, are distinct) leaves
the digest unchanged, because items are sorted before hashing; determinism on
equal inputs is the reflexive instance. -/
theorem calculate_cachekey_order_independent (md5hex : String → String)
    (formula : String) (p1 p2 : PropertyDict) (hperm : p1.Perm p2)
    (hnd : (p1.map Prod.fst).Nodup) :
    calculate_cachekey md5hex formula p1 =
      calculate_cachekey md5hex formula p2 := by
  unfold calculate_cachekey
  rw [sortItems_perm_eq p1 p2 hperm hnd]

/-- Witness for C3: reordering a concrete two-entry parameter mapping leaves
the digest unchanged. -/
theorem calculate_cachekey_order_independent_witness :
    calculate_cachekey (fun s => s) "x^2"
        [("rendering_dpi", .int 600), ("short", .bool false)] =
      calculate_cachekey (fun s => s) "x^2"
        [("short", .bool false), ("rendering_dpi", .int 600)] :=
  calculate_cachekey_order_independent (fun s => s) "x^2" _ _ (by decide)
    (by decide)

/-- C2: the exec renderer's `rendering_key` is a mapping holding only the
content digest of the file at `cmd[0]`; two requests whose command lists
start with executables of equal content digest — regardless of the remaining
arguments — have equal rendering keys and equal derived cache keys. -/
theorem execRenderingKey_ignores_arguments (digest : List Nat → String)
    (fs : String → List Nat) (digestKM : String → String)
    (pd1 pd2 : PropertyDict) (c1 c2 : String) (args1 args2 : List String)
    (h1 : pdLookup "cmd" pd1 = some (.strList (c1 :: args1)))
    (h2 : pdLookup "cmd" pd2 = some (.strList (c2 :: args2)))
    (hdig : digest (fs c1) = digest (fs c2)) :
    execRenderingKey digest fs pd1 =
      some [("srchash", .str (hash_file digest fs c1))] ∧
    execRenderingKey digest fs pd1 = execRenderingKey digest fs pd2 ∧
    cacheKeyOf digestKM execName execProperties
        [("srchash", .str (hash_file digest fs c1))] =
      cacheKeyOf digestKM execName execProperties
        [("srchash", .str (hash_file digest fs c2))] := by
  unfold execRenderingKey hash_file
  rw [h1, h2]
  refine ⟨rfl, ?_, ?_⟩ <;> simp [hash_file, hdig]

/-- Witness for C2: two concrete requests running the same executable with
different arguments. -/
theorem execRenderingKey_ignores_arguments_witness :
    execRenderingKey lenDigest emptyFs [("cmd", .strList ["prog", "-a"])] =
      some [("srchash", .str (hash_file lenDigest emptyFs "prog"))] ∧
    execRenderingKey lenDigest emptyFs [("cmd", .strList ["prog", "-a"])] =
      execRenderingKey lenDigest emptyFs [("cmd", .strList ["prog", "-b"])] ∧
    cacheKeyOf (fun s => s) execName execProperties
        [("srchash", .str (hash_file lenDigest emptyFs "prog"))] =
      cacheKeyOf (fun s => s) execName execProperties
        [("srchash", .str (hash_file lenDigest emptyFs "prog"))] :=
  execRenderingKey_ignores_arguments lenDigest emptyFs (fun s => s)
    _ _ "prog" "prog" ["-a"] ["-b"] (by decide) (by decide) rfl

/-- C9: when the command starts and exits with status 0, the exec renderer's
`render` returns a mapping with exactly the keys `cmd`, `stdout` and
`stderr`, holding the invoked command and the captured output bytes; in
particular a `cmd = ["true"]` request yields empty stdout and stderr. -/
theorem execRender_success_shape (run : List String → ProcOutcome)
    (pd : PropertyDict) (cmd : List String) (out err : List Nat)
    (hc : pdLookup "cmd" pd = some (.strList cmd))
    (hr : run cmd = .completed 0 out err) :
    execRender run pd = .ok [("cmd", .strList cmd), ("stdout", .bytes out),
      ("stderr", .bytes err)] ∧
    (∀ res, execRender run pd = .ok res →
      res.map Prod.fst = ["cmd", "stdout", "stderr"]) ∧
    (∀ run2 : List String → ProcOutcome,
      run2 ["true"] = .completed 0 [] [] →
      execRender run2 [("cmd", .strList ["true"])] =
        .ok [("cmd", .strList ["true"]), ("stdout", .bytes []),
             ("stderr", .bytes [])]) := by
  have hmain : execRender run pd = .ok [("cmd", .strList cmd),
      ("stdout", .bytes out), ("stderr", .bytes err)] := by
    unfold execRender
    rw [hc]
    simp [hr]
  refine ⟨hmain, ?_, ?_⟩
  · intro res hres
    rw [hmain] at hres
    cases hres
    rfl
  · intro run2 hr2
    simp [execRender, pdLookup, hr2]

/-- Witness for C9: a concrete `cmd = ["true"]` request under a process
primitive that exits 0 with empty output. -/
theorem execRender_success_shape_witness :
    execRender runTrue [("cmd", .strList ["true"])] =
      .ok [("cmd", .strList ["true"]), ("stdout", .bytes []),
           ("stderr", .bytes [])] ∧
    (∀ res, execRender runTrue [("cmd", .strList ["true"])] = .ok res →
      res.map Prod.fst = ["cmd", "stdout", "stderr"]) ∧
    (∀ run2 : List String → ProcOutcome,
      run2 ["true"] = .completed 0 [] [] →
      execRender run2 [("cmd", .strList ["true"])] =
        .ok [("cmd", .strList ["true"]), ("stdout", .bytes []),
             ("stderr", .bytes [])]) :=
  execRender_success_shape runTrue [("cmd", .strList ["true"])] ["true"] [] []
    (by decide) rfl

/-- C5 counterexample: when the executable cannot be started
(`PermissionError`), the failure message of `ExecRenderer.render` is the
command and the underlying error — it contains no digit at all, hence no exit
code, contradicting the claim that in those cases the message includes the
command and the exit code. -/
theorem execRender_permission_msg_lacks_exit_code :
    execRender runPermFail [("cmd", .strList ["./prog"])] =
      .error (.execFailed (execStartFailMsg ["./prog"] "Permission denied")) ∧
    containsDigit (execStartFailMsg ["./prog"] "Permission denied") = false := by
  constructor
  · rfl
  · decide

/-- C5 amended: `ExecRenderer.render` raises `RenderExecutionError` exactly
when the executable cannot be started or the process exits with a non-zero
status; the failure message always includes the command; it includes the exit
code when the process exited non-zero, and the underlying error message in
the cannot-start case. -/
theorem execRender_failure_modes (run : List String → ProcOutcome)
    (pd : PropertyDict) (cmd : List String)
    (hc : pdLookup "cmd" pd = some (.strList cmd)) :
    ((∃ e, execRender run pd = .error e) ↔
      (∃ m, run cmd = .permissionError m) ∨
      (∃ rc out err, run cmd = .completed rc out err ∧ rc ≠ 0)) ∧
    (∀ m, run cmd = .permissionError m →
      ∃ pre post, execRender run pd =
        .error (.execFailed (pre ++ pyStrOfList cmd ++ post))) ∧
    (∀ (rc : Int) (out err : List Nat), run cmd = .completed rc out err →
      rc ≠ 0 →
      ∃ pre mid post, execRender run pd =
        .error (.execFailed
          (pre ++ pyStrOfList cmd ++ (mid ++ (toString rc ++ post))))) := by
  have hred : execRender run pd =
      (match run cmd with
       | .permissionError e => .error (.execFailed (execStartFailMsg cmd e))
       | .completed rc out err =>
         if rc ≠ 0 then .error (.execFailed (execNonzeroMsg cmd rc))
         else .ok [("cmd", .strList cmd), ("stdout", .bytes out),
                   ("stderr", .bytes err)]) := by
    unfold execRender
    rw [hc]
  refine ⟨?_, ?_, ?_⟩
  · constructor
    · intro he
      obtain ⟨e, he⟩ := he
      rw [hred] at he
      cases hrun : run cmd with
      | permissionError m => exact .inl ⟨m, rfl⟩
      | completed rc out err =>
        rw [hrun] at he
        by_cases hrc : rc = 0
        · subst hrc
          simp at he
        · exact .inr ⟨rc, out, err, rfl, hrc⟩
    · intro hcase
      rw [hred]
      rcases hcase with ⟨m, hm⟩ | ⟨rc, out, err, hrun, hrc⟩
      · rw [hm]
        exact ⟨_, rfl⟩
      · rw [hrun]
        simp [hrc]
  · intro m hm
    rw [hred, hm]
    exact ⟨"Could not execute " ++ squote, (squote ++ " (") ++ (m ++ ")."), rfl⟩
  · intro rc out err hrun hrc
    have hred2 : execRender run pd =
        if rc ≠ 0 then .error (.execFailed (execNonzeroMsg cmd rc))
        else .ok [("cmd", .strList cmd), ("stdout", .bytes out),
                  ("stderr", .bytes err)] := by
      rw [hred, hrun]
    refine ⟨"Could not execute " ++ squote, squote ++ ": returncode ", ".", ?_⟩
    rw [hred2, if_pos hrc]
    rfl

/-- Witness for C5 (amended) at concrete inputs: a permission failure carries
the command in its message, and an exit-2 failure carries the command and the
code. -/
theorem execRender_failure_modes_witness :
    (∃ e, execRender runPermFail [("cmd", .strList ["./prog"])] = .error e) ∧
    (∃ pre post, execRender runPermFail [("cmd", .strList ["./prog"])] =
      .error (.execFailed (pre ++ pyStrOfList ["./prog"] ++ post))) ∧
    (∃ pre mid post, execRender runExit2 [("cmd", .strList ["./prog"])] =
      .error (.execFailed
        (pre ++ pyStrOfList ["./prog"] ++
          (mid ++ (toString (2 : Int) ++ post))))) :=
  ⟨(execRender_failure_modes runPermFail _ ["./prog"] (by decide)).1.mpr
      (.inl ⟨"Permission denied", rfl⟩),
   (execRender_failure_modes runPermFail _ ["./prog"] (by decide)).2.1
      "Permission denied" rfl,
   (execRender_failure_modes runExit2 _ ["./prog"] (by decide)).2.2
      2 [] [] rfl (by decide)⟩

/-- C4 counterexample: at the concrete request with formula `x^2` and
`short = False`, the formula renderer's (default, spec section 4.1)
`rendering_key` returns the request itself; it has no `rendering_dpi` entry
and no integer value at all, so it does not include the rendering resolution
(600 for the default construction), contradicting the claim that
`rendering_key` returns the resolution among its fields. -/
theorem latexRenderingKey_lacks_resolution :
    latexRenderingKey [("formula", .str "x^2"), ("short", .bool false)] =
      [("formula", .str "x^2"), ("short", .bool false)] ∧
    pdLookup "rendering_dpi"
      (latexRenderingKey [("formula", .str "x^2"), ("short", .bool false)]) =
      none ∧
    ((latexRenderingKey [("formula", .str "x^2"),
        ("short", .bool false)]).map Prod.snd).all
      (fun v => match v with | .int _ => false | _ => true) = true := by
  refine ⟨rfl, by decide, by decide⟩

/-- C4 amended: the formula renderer's `rendering_key` is the entire request
(the formula text and, when present, the inline-vs-block `short` flag) — it
does not itself carry the rendering resolution; the resolution enters the key
material through the renderer's `properties` mapping, which includes
`rendering_dpi`. -/
theorem latexRenderingKey_is_request (pd : PropertyDict) (dpi : Int) :
    latexRenderingKey pd = pd ∧
    pdLookup "rendering_dpi" (latexProperties dpi) = some (.int dpi) := by
  refine ⟨rfl, ?_⟩
  simp [latexProperties, pdLookup]

/-- C6: a request missing a required field fails with the taxonomy's
invalid-input error — the exec renderer without a `cmd` entry, the formula
renderer without a `formula` entry (before any external tool runs) — and a
renderer failure on a cache miss propagates with the store left unchanged, so
the failure is never cached. -/
theorem missing_field_invalid_never_cached :
    (∀ (run : List String → ProcOutcome) (pd : PropertyDict),
        pdLookup "cmd" pd = none →
        execRender run pd = .error (.invalidInput "cmd")) ∧
    (∀ (pipeline : String → List Nat × CropInfo) (pd : PropertyDict),
        pdLookup "formula" pd = none →
        latexRender pipeline pd = .error (.invalidInput "formula")) ∧
    (∀ (Req Res : Type) (digestKM : String → String)
        (r : SpecRenderer Req Res) (s : CacheState Res) (req : Req)
        (e : RenderError),
        s.store.lookup (cacheKeyOf digestKM r.name r.properties
          (r.renderingKey req)) = none →
        r.render req = .error e →
        cacheRender digestKM r s req = (.error e, s, true)) := by
  refine ⟨?_, ?_, ?_⟩
  · intro run pd hc
    unfold execRender
    rw [hc]
  · intro pipeline pd hf
    unfold latexRender
    rw [hf]
  · intro Req Res digestKM r s req e hmiss hfail
    unfold cacheRender
    rw [hmiss, hfail]

/-- Witness for C6 at concrete inputs: the empty request mapping for both
renderers, and a failing stub renderer over an empty store. -/
theorem missing_field_invalid_never_cached_witness :
    execRender runTrue [] = .error (.invalidInput "cmd") ∧
    latexRender (fun _ => ([], CropInfo.mk 0 0 0 0)) [] =
      .error (.invalidInput "formula") ∧
    cacheRender (fun s => s) failingRenderer (CacheState.mk []) 0 =
      (.error (.invalidInput "cmd"), CacheState.mk [], true) :=
  ⟨missing_field_invalid_never_cached.1 runTrue [] rfl,
   missing_field_invalid_never_cached.2.1 (fun _ => ([], CropInfo.mk 0 0 0 0))
     [] rfl,
   missing_field_invalid_never_cached.2.2 Nat (List Nat) (fun s => s)
     failingRenderer (CacheState.mk []) 0 (.invalidInput "cmd") rfl rfl⟩

/-- C1: with the renderer (hence its version and properties) unchanged and
the rendering key of the request unchanged, a second call to the cache right
after a first successful call returns the very same artifact — in particular
byte-identical `data` — leaves the store unchanged, and does not invoke the
wrapped renderer's `render`: the stored entry is served. -/
theorem cacheRender_second_call_hits (Req Res : Type)
    (digestKM : String → String) (r : SpecRenderer Req Res)
    (s0 : CacheState Res) (req1 req2 : Req)
    (hkey : r.renderingKey req1 = r.renderingKey req2)
    (a1 : RenderedArtifact Res) (s1 : CacheState Res) (i1 : Bool)
    (h1 : cacheRender digestKM r s0 req1 = (.ok a1, s1, i1)) :
    cacheRender digestKM r s1 req2 = (.ok a1, s1, false) := by
  have hk2 : cacheKeyOf digestKM r.name r.properties (r.renderingKey req2) =
      cacheKeyOf digestKM r.name r.properties (r.renderingKey req1) := by
    rw [hkey]
  unfold cacheRender at h1 ⊢
  rw [hk2]
  cases hl : s0.store.lookup
      (cacheKeyOf digestKM r.name r.properties (r.renderingKey req1)) with
  | some entry =>
    simp only [hl] at h1
    rw [Prod.mk.injEq, Prod.mk.injEq] at h1
    obtain ⟨h1a, h1b, h1c⟩ := h1
    injection h1a with h1a
    subst h1a
    subst h1b
    rw [hl]
  | none =>
    rw [hl] at h1
    cases hr : r.render req1 with
    | error e =>
      simp only [hr] at h1
      simp at h1
    | ok res =>
      simp only [hr] at h1
      rw [Prod.mk.injEq, Prod.mk.injEq] at h1
      obtain ⟨h1a, h1b, h1c⟩ := h1
      injection h1a with h1a
      subst h1a
      subst h1b
      simp [List.lookup]

/-- Witness for C1: a stub renderer over the empty store; the first call
renders and publishes, the second is served from the store. -/
theorem cacheRender_second_call_hits_witness :
    cacheRender (fun s => s) stubRenderer
      (CacheState.mk [(cacheKeyOf (fun s => s) stubRenderer.name
          stubRenderer.properties (stubRenderer.renderingKey 0), [1, 2, 3])])
      0 =
    (.ok ⟨cacheKeyOf (fun s => s) stubRenderer.name stubRenderer.properties
        (stubRenderer.renderingKey 0), [1, 2, 3]⟩,
     CacheState.mk [(cacheKeyOf (fun s => s) stubRenderer.name
        stubRenderer.properties (stubRenderer.renderingKey 0), [1, 2, 3])],
     false) :=
  cacheRender_second_call_hits Nat (List Nat) (fun s => s) stubRenderer
    (CacheState.mk []) 0 0 rfl _ _ _ rfl
